import Mathlib

/-!
Shallow embedding of the build/test-plan resolution logic of the botan repository, file
`src/scripts/ci_build.py`: the functions `build_targets` (line 56) and
`determine_flags` (line 75), together with theorems settling the
claims of the specification about them.

Modelling conventions:
- Python strings are `String`, Python lists are `List String`, `None`-able
  values are `Option`s.
- The environment values the function reads (`os.getenv`, `os.access`) are
  collected in an `Env` record and held fixed for the call.
- `raise Exception(...)` and the `ValueError` that `list.remove` raises on a
  missing element become the `Except PyExc` error monad.
- The unknown-OS case prints and returns `(None, None, None)` instead of
  raising; it is modelled as a regular (non-error) result of `none` parts.
- `tempfile.mkdtemp` (the per-call scratch install path) is modelled as an
  explicit argument `install_pfx`; the source uses its result only inside the
  first configure flag (`--prefix=...`).
- The body of `determine_flags` is split into stage functions, one per
  contiguous block of the source, applied in source order by `resolveMain`;
  each stage carries the locals it may update.
-/

set_option autoImplicit false

/-- Models Python `s.startswith(pre)`. -/
def startswith (s pre : String) : Bool :=
  pre.data.isPrefixOf s.data

/-- Models `os.path.join a b` as it is used in ci_build.py, where the second
component is always a relative path. -/
def pathJoin (a b : String) : String :=
  a ++ "/" ++ b

/-- Models Python truthiness of an optional string (`None` and the empty
string are falsy). -/
def pyTruthy : Option String → Bool
  | none => false
  | some s => if s = "" then false else true

/-- Models Python `list.remove x`: drops the first occurrence of `x`, and
returns `none` when `x` is absent (Python raises `ValueError` there). -/
def listRemove : List String → String → Option (List String)
  | [], _ => none
  | y :: ys, x => if y = x then some ys else (listRemove ys x).map (fun zs => y :: zs)

/-- The environment values `determine_flags` reads.  `android_api_level`
models `int(os.getenv("ANDROID_API_LEVEL", "0"))`, so `0` means the variable
is unset (the source treats an explicit 0 the same way).
`pkcs11_lib_readable` models the `os.access(pkcs11_lib, os.R_OK)` result. -/
structure Env where
  android_ndk : Option String
  android_api_level : Nat
  boost_root : Option String
  boost_includedir : Option String
  pkcs11_lib_readable : Bool
deriving DecidableEq

/-- The caller-supplied parameters of `determine_flags` other than the target
name and the `tempfile.mkdtemp` result, in source order (line 75). -/
structure HostParams where
  target_os : String
  target_cpu : Option String
  target_cc : String
  cc_bin : String
  ccache : Option String
  root_dir : String
  pkcs11_lib : Option String
  use_gdb : Bool
  disable_werror : Bool
  extra_cxxflags : List String
  disabled_tests : List String
deriving DecidableEq

/-- The exceptions `determine_flags` can raise: `raise Exception(msg)`, and
the `ValueError` that `list.remove` raises on a missing element (line 262).
The quote characters the source puts around the target name inside messages
are omitted. -/
inductive PyExc where
  | raisedException (msg : String)
  | valueError (msg : String)
deriving DecidableEq

/-- Lines 156-163: the fixed list of slow tests disabled under valgrind. -/
def slow_tests : List String :=
  ["cryptobox", "dh_invalid", "dh_kat", "dh_keygen",
   "dl_group_gen", "dlies", "dsa_param", "ecc_basemul",
   "ecdsa_verify_wycheproof", "mce_keygen", "passhash9",
   "rsa_encrypt", "rsa_pss", "rsa_pss_raw", "scrypt",
   "srp6_kat", "x509_path_bsi", "xmss_keygen", "xmss_sign",
   "pbkdf", "argon2", "bcrypt", "bcrypt_pbkdf", "compression",
   "ed25519_sign", "elgamal_keygen", "x509_path_rsa_pss"]

/-- Lines 56-73: `build_targets(target, target_os)`, the artifact selector,
with the yield order of the generator kept as list order. -/
def build_targets (target target_os : String) : List String :=
  (if target ∈ ["shared", "minimized", "bsi", "nist"] then ["shared"]
   else if target ∈ ["static", "fuzzers", "baremetal", "emscripten"] then ["static"]
   else if target_os ∈ ["windows"] then ["shared"]
   else if target_os ∈ ["ios", "mingw"] then ["static"]
   else ["shared", "static"])
  ++ ["cli", "tests"]
  ++ (if target ∈ ["coverage"] then ["bogo_shim"] else [])

/-- Follows the words of spec section 4.1: the library flavor given by the
ordered five-rule decision list (first match wins). -/
def libFlavorSpec (target target_os : String) : List String :=
  if target ∈ ["shared", "minimized", "bsi", "nist"] then ["shared"]
  else if target ∈ ["static", "fuzzers", "baremetal", "emscripten"] then ["static"]
  else if target_os = "windows" then ["shared"]
  else if target_os = "ios" ∨ target_os = "mingw" then ["static"]
  else ["shared", "static"]

/-- Follows the words of spec section 4.1: flavor from the decision list, then
always `cli` and `tests`, then `bogo_shim` exactly for the coverage target. -/
def buildTargetsSpec (target target_os : String) : List String :=
  libFlavorSpec target target_os ++ ["cli", "tests"]
    ++ (if target = "coverage" then ["bogo_shim"] else [])

/-- The local state of `determine_flags` at line 299, after the final
`--cc-bin` flag has been appended and before the test command is finalized.
`flags` excludes the leading `--prefix` flag, which `determine_flags` below
adds (the source uses the scratch path nowhere else).  `test_pfx` and
`make_pfx` name the source locals `test_prefix` and `make_prefix`. -/
structure MidState where
  flags : List String
  test_pfx : List String
  test_cmd : Option (List String)
  make_pfx : List String
  disabled_tests : List String
deriving DecidableEq

/-- Lines 89-104: the OS remapping chain applied to the caller OS. -/
def osRemap (target host_os target_cc : String) : String :=
  let target_os :=
    if startswith target "cross-" then
      if host_os = "osx" then "ios"
      else if target = "cross-win64" then "mingw"
      else if target ∈ ["cross-android-arm32", "cross-android-arm64"] then "android"
      else host_os
    else host_os
  let target_os := if target_os = "windows" ∧ target_cc = "gcc" then "mingw" else target_os
  let target_os := if target = "baremetal" then "none" else target_os
  if target = "emscripten" then "emscripten" else target_os

/-- Lines 112-127: the base flag list (without the leading `--prefix` flag):
compiler, OS, build targets, compiler cache, werror, CPU, extra flags. -/
def baseFlags (target target_os : String) (p : HostParams) : List String :=
  let flags := ["--cc=" ++ p.target_cc, "--os=" ++ target_os,
                "--build-targets=" ++ String.intercalate "," (build_targets target target_os)]
  let flags := flags ++ (match p.ccache with
    | some c => ["--no-store-vc-rev", "--compiler-cache=" ++ c]
    | none => [])
  let flags := flags ++ (if p.disable_werror then [] else ["--werror-mode"])
  let flags := flags ++ (match p.target_cpu with
    | some c => ["--cpu=" ++ c]
    | none => [])
  flags ++ p.extra_cxxflags.map (fun f => "--extra-cxxflags=" ++ f)

/-- Lines 129-192: the target-specific flag additions, in source order. -/
def targetFlags (target target_cc : String) : List String :=
  let flags := (if target ∈ ["minimized"] then
    ["--minimized-build", "--enable-modules=system_rng,sha2_32,sha2_64,aes"] else [])
  let flags := flags ++ (if target ∈ ["amalgamation"] then ["--amalgamation"] else [])
  let flags := flags ++ (if target ∈ ["bsi", "nist"] then
    ["--module-policy=" ++ target, "--enable-modules=tls12"] else [])
  let flags := flags ++ (if target = "docs" then
    ["--with-doxygen", "--with-sphinx", "--with-rst2man"] else [])
  let flags := flags ++ (if target = "coverage" then
    ["--with-coverage-info", "--with-debug-info", "--test-mode"] else [])
  let flags := flags ++ (if target = "valgrind" then ["--with-valgrind"] else [])
  let flags := flags ++ (if target = "fuzzers" then ["--unsafe-fuzzer-mode"] else [])
  let flags := flags ++ (if target ∈ ["fuzzers", "coverage"] then ["--build-fuzzers=test"] else [])
  let flags := flags ++ (if target ∈ ["fuzzers", "sanitizer"] then
    ["--with-debug-asserts"] ++
      (if target_cc ∈ ["clang", "gcc"] then ["--enable-sanitizers=address,undefined"]
       else ["--with-sanitizers"])
    else [])
  let flags := flags ++ (if target ∈ ["valgrind", "sanitizer", "fuzzers"] then
    ["--disable-modules=locking_allocator"] else [])
  let flags := flags ++ (if target = "baremetal" then
    ["--cpu=arm32", "--disable-neon", "--without-stack-protector",
     "--ldflags=-specs=nosys.specs"] else [])
  flags ++ (if target = "emscripten" then ["--cpu=wasm"] else [])

/-- Lines 139-192: the updates those same blocks make to `test_cmd`
(docs/baremetal/emscripten disable it, valgrind appends the thread flag). -/
def testCmdAfterTargets (target : String) (tc : Option (List String)) : Option (List String) :=
  let tc := if target = "docs" then none else tc
  let tc := if target = "valgrind" then tc.map (fun l => l ++ ["--test-threads=1"]) else tc
  let tc := if target = "baremetal" then none else tc
  if target = "emscripten" then none else tc

/-- Line 152: `test_prefix` after the target blocks (valgrind sets it). -/
def testPfxAfterTargets (target : String) : List String :=
  if target = "valgrind" then
    ["valgrind", "--error-exitcode=9", "-v", "--leak-check=full", "--show-reachable=yes"]
  else []

/-- Lines 143-145 and 150-165: the target additions to `disabled_tests`. -/
def disabledAfterTargets (target : String) (dts : List String) : List String :=
  (dts ++ (if target = "cross-win64" then ["certstor_system"] else []))
    ++ (if target = "valgrind" then slow_tests else [])

/-- Line 185: baremetal pins the embedded cross compiler. -/
def ccBinAfterTargets (target cc_bin : String) : String :=
  if target = "baremetal" then "arm-none-eabi-c++" else cc_bin

/-- The locals the cross/native block (lines 194-294) may update:
`(flags, cc_bin, test_cmd, test_prefix, make_prefix)`. -/
abbrev StepVars :=
  List String × String × Option (List String) × List String × List String

/-- Lines 208-211: the effective Android API level; 16 for 32-bit ARM and 28
otherwise when the environment supplies none. -/
def androidApi (target : String) (env : Env) : Nat :=
  if env.android_api_level = 0 then
    (if target = "cross-android-arm32" then 16 else 28)
  else env.android_api_level

/-- Lines 202-228: the Android sub-resolution.  Needs ANDROID_NDK, derives the
compiler path from architecture and API level, disables test execution. -/
def androidStep (target : String) (env : Env) (flags : List String) (cc_bin : String)
    (test_pfx make_pfx : List String) : Except PyExc StepVars :=
  match env.android_ndk with
  | none =>
    .error (.raisedException "Android CI build requires ANDROID_NDK env variable be set")
  | some ndk =>
    let api_lvl := androidApi target env
    let toolchain_dir := pathJoin ndk "toolchains/llvm/prebuilt/linux-x86_64/bin"
    let ccflags :=
      if target = "cross-android-arm32" then
        (pathJoin toolchain_dir ("armv7a-linux-androideabi" ++ toString api_lvl ++ "-clang++"),
         flags ++ ["--cpu=armv7",
           "--ar-command=" ++ pathJoin toolchain_dir "arm-linux-androideabi-ar"])
      else if target = "cross-android-arm64" then
        (pathJoin toolchain_dir ("aarch64-linux-android" ++ toString api_lvl ++ "-clang++"),
         flags ++ ["--cpu=arm64",
           "--ar-command=" ++ pathJoin toolchain_dir "aarch64-linux-android-ar"])
      else (cc_bin, flags)
    let flags := ccflags.2 ++ (if api_lvl < 18 then ["--without-os-features=getauxval"] else [])
    let flags := flags ++ (if 28 ≤ api_lvl then ["--with-os-features=getentropy"] else [])
    .ok (flags, ccflags.1, none, test_pfx, make_pfx)

/-- Lines 240-264: the final `else` of the cross block (Linux-hosted cross
toolchains); `cross-mips64` attempts `test_cmd.remove("simd_32")`, which in
Python raises `ValueError` when the element is absent. -/
def crossLinuxStep (target : String) (flags : List String) (cc_bin : String)
    (test_cmd : Option (List String)) (test_pfx make_pfx : List String) :
    Except PyExc StepVars :=
  if target = "cross-arm32" then
    .ok (flags ++ ["--cpu=armv7"], "arm-linux-gnueabihf-g++", test_cmd, test_pfx, make_pfx)
  else if target = "cross-arm64" then
    .ok (flags ++ ["--cpu=aarch64"], "aarch64-linux-gnu-g++", test_cmd,
         ["qemu-aarch64", "-L", "/usr/aarch64-linux-gnu/"], make_pfx)
  else if target = "cross-ppc32" then
    .ok (flags ++ ["--cpu=ppc32"], "powerpc-linux-gnu-g++", test_cmd,
         ["qemu-ppc", "-L", "/usr/powerpc-linux-gnu/"], make_pfx)
  else if target = "cross-ppc64" then
    .ok (flags ++ ["--cpu=ppc64", "--with-endian=little"], "powerpc64le-linux-gnu-g++",
         test_cmd, ["qemu-ppc64le", "-cpu", "POWER8", "-L", "/usr/powerpc64le-linux-gnu/"],
         make_pfx)
  else if target = "cross-mips64" then
    match listRemove (test_cmd.getD []) "simd_32" with
    | none => .error (.valueError "list.remove(x): x not in list")
    | some tc =>
      .ok (flags ++ ["--cpu=mips64", "--with-endian=big"], "mips64-linux-gnuabi64-g++",
           some tc, ["qemu-mips64", "-L", "/usr/mips64-linux-gnuabi64/"], make_pfx)
  else
    .error (.raisedException ("Unknown cross target " ++ target ++ " for Linux"))

/-- Lines 194-264: the cross-compilation sub-resolution. -/
def crossStep (target target_os root_dir : String) (env : Env) (flags : List String)
    (cc_bin : String) (test_cmd : Option (List String)) (test_pfx make_pfx : List String) :
    Except PyExc StepVars :=
  if target_os = "ios" then
    if target = "cross-ios-arm64" then
      .ok (flags ++ ["--cpu=arm64", "--cc-abi-flags=-arch arm64 -stdlib=libc++"],
           cc_bin, none, test_pfx, ["xcrun", "--sdk", "iphoneos"])
    else
      .error (.raisedException ("Unknown cross target " ++ target ++ " for iOS"))
  else if target_os = "android" then
    androidStep target env flags cc_bin test_pfx make_pfx
  else if target = "cross-i386" then
    .ok (flags ++ ["--cpu=x86_32"], cc_bin, test_cmd, test_pfx, make_pfx)
  else if target = "cross-win64" then
    .ok (flags ++ ["--cpu=x86_64", "--cc-abi-flags=-static",
           "--ar-command=x86_64-w64-mingw32-ar", "--without-os-feature=threads"],
         "x86_64-w64-mingw32-g++",
         (match test_cmd with
          | some tc => some ([pathJoin root_dir "botan-test.exe"] ++ tc.tail)
          | none => none),
         ["wine"], make_pfx)
  else
    crossLinuxStep target flags cc_bin test_cmd test_pfx make_pfx

/-- Lines 265-294: the flags and test-command additions for native targets. -/
def nativeStep (target target_os : String) (p : HostParams) (env : Env)
    (flags : List String) (cc_bin : String) (test_cmd : Option (List String))
    (test_pfx make_pfx : List String) : StepVars :=
  let flags := flags ++ (if target_os ∈ ["osx", "linux"] then
    ["--with-bzip2", "--with-sqlite", "--with-zlib"] else [])
  let flags := flags ++ (if target_os ∈ ["osx", "ios"] then ["--with-commoncrypto"] else [])
  let flags := flags ++ (if target = "coverage" then ["--with-boost"] else [])
  let flags := flags ++ (if target_os = "windows" ∧ target ∈ ["shared", "static"] then
    (if pyTruthy env.boost_root then
      ["--with-external-includedir", env.boost_root.getD ""]
     else if pyTruthy env.boost_includedir then
      ["--with-external-includedir", env.boost_includedir.getD ""]
     else [])
    else [])
  let flags := flags ++ (if target_os = "linux" then ["--with-lzma"] else [])
  let flags := flags ++ (if target ∈ ["coverage"] then ["--with-tpm"] else [])
  let test_cmd := if target ∈ ["coverage"] then
    test_cmd.map (fun tc => tc ++ ["--run-online-tests"] ++
      (if pyTruthy p.pkcs11_lib ∧ env.pkcs11_lib_readable then
        ["--pkcs11-lib=" ++ p.pkcs11_lib.getD ""] else []))
    else test_cmd
  (flags, cc_bin, test_cmd, test_pfx, make_pfx)

/-- Lines 296-299 and the line-320 return: the long-tests flag for
coverage/sanitizer, the final `--cc-bin` append, and the assembly of the
locals into the pre-finalization state (`disabled_tests` is untouched by the
cross/native block, so it is passed around the `step` result). -/
def assemblePlan (target : String) (disabled_tests : List String)
    (step : Except PyExc StepVars) : Except PyExc (Option MidState) :=
  match step with
  | .error e => .error e
  | .ok (flags, cc_bin, test_cmd, test_pfx, make_pfx) =>
    let test_cmd := if target ∈ ["coverage", "sanitizer"] then
      test_cmd.map (fun tc => tc ++ ["--run-long-tests"]) else test_cmd
    let flags := flags ++ ["--cc-bin=" ++ cc_bin]
    .ok (some { flags := flags, test_pfx := test_pfx, test_cmd := test_cmd,
                make_pfx := make_pfx, disabled_tests := disabled_tests })

/-- Lines 83-299 of `determine_flags`: OS validation and remapping, flag and
skip-list accumulation, and the cross/native sub-resolution, up to and
including the final `--cc-bin` flag append (line 299).  `.ok none` models the
unknown-OS early `return (None, None, None)`. -/
def resolveMain (target : String) (p : HostParams) (env : Env) :
    Except PyExc (Option MidState) :=
  let is_cross_target := startswith target "cross-"
  if p.target_os ∉ ["linux", "osx", "windows", "freebsd"] then
    .ok none
  else
    let target_os := osRemap target p.target_os p.target_cc
    let flags := baseFlags target target_os p ++ targetFlags target p.target_cc
    let test_cmd := testCmdAfterTargets target (some [pathJoin p.root_dir "botan-test"])
    let test_pfx := testPfxAfterTargets target
    let disabled_tests := disabledAfterTargets target p.disabled_tests
    let cc_bin := ccBinAfterTargets target p.cc_bin
    let step :=
      if is_cross_target then
        crossStep target target_os p.root_dir env flags cc_bin test_cmd test_pfx []
      else
        .ok (nativeStep target target_os p env flags cc_bin test_cmd test_pfx [])
    assemblePlan target disabled_tests step

/-- The fully resolved plan: `MidState` plus the rendered test command and
the final run command.  `test_cmd` is the source local of the same name after
the skip-list has been flattened into it. -/
structure ResolveOut where
  flags : List String
  test_pfx : List String
  test_cmd : Option (List String)
  run_test_command : Option (List String)
  make_pfx : List String
  disabled_tests : List String
deriving DecidableEq

/-- Lines 301-318 of `determine_flags`: gdb skip addition, skip-list
rendering, and the optional gdb wrapping of the command.  `tc0.headD ""`
models `test_cmd[0]`; in the source `test_cmd` is never empty. -/
def finishTestCmd (use_gdb : Bool) (m : MidState) : ResolveOut :=
  match m.test_cmd with
  | none =>
    { flags := m.flags, test_pfx := m.test_pfx, test_cmd := none,
      run_test_command := none, make_pfx := m.make_pfx,
      disabled_tests := m.disabled_tests }
  | some tc0 =>
    let disabled := m.disabled_tests ++ (if use_gdb then ["os_utils"] else [])
    let tc := tc0 ++ (if disabled = [] then [] else
      ["--skip-tests=" ++ String.intercalate "," disabled])
    let run := if use_gdb then
        m.test_pfx ++ ["gdb", tc.headD "", "-ex",
          "run " ++ String.intercalate " " tc.tail, "-ex", "bt", "-ex", "quit"]
      else m.test_pfx ++ tc
    { flags := m.flags, test_pfx := m.test_pfx, test_cmd := some tc,
      run_test_command := some run, make_pfx := m.make_pfx,
      disabled_tests := disabled }

/-- `determine_flags` without the scratch install path: the resolution with
all its observable intermediate state. -/
def determine_flags_core (target : String) (p : HostParams) (env : Env) :
    Except PyExc (Option ResolveOut) :=
  match resolveMain target p env with
  | .error e => .error e
  | .ok none => .ok none
  | .ok (some m) => .ok (some (finishTestCmd p.use_gdb m))

/-- Lines 75-320: `determine_flags`.  Returns the result triple of the source
`(flags, run_test_command, make_prefix)`; the all-`none` triple models the
unknown-OS `return (None, None, None)`.  `install_pfx` is the
`tempfile.mkdtemp` result, which heads the flag list. -/
def determine_flags (install_pfx : String) (target : String) (p : HostParams) (env : Env) :
    Except PyExc (Option (List String) × Option (List String) × Option (List String)) :=
  match determine_flags_core target p env with
  | .error e => .error e
  | .ok none => .ok (none, none, none)
  | .ok (some out) =>
    .ok (some (("--prefix=" ++ install_pfx) :: out.flags),
         out.run_test_command, some out.make_pfx)

/-- Holds when the resolution produced a plan satisfying `P` (vacuously true
on the error and unknown-OS outcomes). -/
def onSuccess (P : ResolveOut → Prop) : Except PyExc (Option ResolveOut) → Prop
  | .ok (some out) => P out
  | _ => True

/-- Same as `onSuccess`, for the pre-finalization state. -/
def onMidSuccess (P : MidState → Prop) : Except PyExc (Option MidState) → Prop
  | .ok (some m) => P m
  | _ => True

/-- Whether the resolution produced a plan. -/
def coreOkSome : Except PyExc (Option ResolveOut) → Bool
  | .ok (some _) => true
  | _ => false

/-- Whether the pre-finalization resolution produced a state. -/
def midOkSome : Except PyExc (Option MidState) → Bool
  | .ok (some _) => true
  | _ => false

/-- A concrete Linux/gcc host with all-default optional parameters. -/
def hostLinuxGcc : HostParams :=
  { target_os := "linux", target_cpu := none, target_cc := "gcc", cc_bin := "g++",
    ccache := none, root_dir := ".", pkcs11_lib := none, use_gdb := false,
    disable_werror := false, extra_cxxflags := [], disabled_tests := [] }

/-- The same host with macOS as the target OS. -/
def hostOsxGcc : HostParams :=
  { hostLinuxGcc with target_os := "osx" }

/-- The same host with the debugger flag set. -/
def hostLinuxGdb : HostParams :=
  { hostLinuxGcc with use_gdb := true }

/-- An environment with nothing set. -/
def env0 : Env :=
  { android_ndk := none, android_api_level := 0, boost_root := none,
    boost_includedir := none, pkcs11_lib_readable := false }

/-- An environment providing an Android NDK root. -/
def envNdk : Env :=
  { env0 with android_ndk := some "/opt/ndk" }


/-- Property for C3: the valgrind wrapper prefix, the forced single-thread
flag, and a skip-list containing the fixed slow list and the caller skips. -/
def ValgrindPlanProp (p : HostParams) (out : ResolveOut) : Prop :=
  out.test_pfx = ["valgrind", "--error-exitcode=9", "-v", "--leak-check=full",
                  "--show-reachable=yes"]
  ∧ (∃ tc, out.test_cmd = some tc ∧ "--test-threads=1" ∈ tc)
  ∧ slow_tests ⊆ out.disabled_tests
  ∧ p.disabled_tests ⊆ out.disabled_tests

/-- Property for C4: no test run command and no test command at all. -/
def NoTestRunProp (out : ResolveOut) : Prop :=
  out.run_test_command = none ∧ out.test_cmd = none

/-- Property for C5: the wine prefix, the .exe test binary, the certstor skip
and the static-only artifact selection carried in the build-targets flag. -/
def CrossWin64Prop (p : HostParams) (out : ResolveOut) : Prop :=
  "certstor_system" ∈ out.disabled_tests
  ∧ out.test_pfx = ["wine"]
  ∧ (∃ tc, out.test_cmd = some tc ∧ tc.head? = some (pathJoin p.root_dir "botan-test.exe"))
  ∧ "static" ∈ build_targets "cross-win64" "mingw"
  ∧ "shared" ∉ build_targets "cross-win64" "mingw"
  ∧ ("--build-targets=" ++ String.intercalate "," (build_targets "cross-win64" "mingw"))
      ∈ out.flags

/-- Property for C7: whenever a run command exists, the skip-list contains
os_utils, the rendered test command carries the flattened skip-list flag, and
the run command is the prefix followed by a gdb invocation that runs the
command with its arguments, captures a backtrace and quits. -/
def GdbWrapProp (out : ResolveOut) : Prop :=
  ∀ r, out.run_test_command = some r →
    "os_utils" ∈ out.disabled_tests
    ∧ ∃ tc, out.test_cmd = some tc
        ∧ ("--skip-tests=" ++ String.intercalate "," out.disabled_tests) ∈ tc
        ∧ r = out.test_pfx ++ ["gdb", tc.headD "", "-ex",
              "run " ++ String.intercalate " " tc.tail, "-ex", "bt", "-ex", "quit"]

/-- Property for C8: the API-level dependent feature flags, the compiler
binary derived from architecture and API level, and no test execution. -/
def AndroidPlanProp (t : String) (env : Env) (out : ResolveOut) : Prop :=
  (androidApi t env < 18 → "--without-os-features=getauxval" ∈ out.flags)
  ∧ (28 ≤ androidApi t env → "--with-os-features=getentropy" ∈ out.flags)
  ∧ (∀ ndk, env.android_ndk = some ndk →
      ("--cc-bin=" ++ pathJoin (pathJoin ndk "toolchains/llvm/prebuilt/linux-x86_64/bin")
        ((if t = "cross-android-arm32" then "armv7a-linux-androideabi"
          else "aarch64-linux-android") ++ toString (androidApi t env) ++ "-clang++"))
        ∈ out.flags)
  ∧ out.run_test_command = none

/-- Property for C10: the accumulated skip-list is empty and the finalization
appends nothing to the test command: no skip-tests flag is rendered. -/
def NoSkipFlagProp (g : Bool) (m : MidState) : Prop :=
  m.disabled_tests = []
  ∧ (finishTestCmd g m).disabled_tests = []
  ∧ (finishTestCmd g m).test_cmd = m.test_cmd
  ∧ (finishTestCmd g m).run_test_command
      = Option.map (fun tc => m.test_pfx ++ tc) m.test_cmd


/-- C6: the artifact selector equals the ordered decision list of the spec
(flavor rules, then cli and tests, then bogo_shim exactly for coverage), is
total by construction, and always emits cli and tests. -/
theorem build_targets_matches_spec (t os : String) :
    build_targets t os = buildTargetsSpec t os
    ∧ "cli" ∈ build_targets t os
    ∧ "tests" ∈ build_targets t os
    ∧ ("bogo_shim" ∈ build_targets t os ↔ t = "coverage") := by
  simp only [build_targets, buildTargetsSpec, libFlavorSpec,
    List.mem_cons, List.mem_singleton, List.not_mem_nil, or_false]
  split_ifs <;> simp_all

/-- C9: two resolutions with identical inputs differ only in the scratch
install path carried by the leading prefix flag: the remaining flags, the
run command and the make prefix are identical, and errors are identical. -/
theorem determine_flags_deterministic_up_to_scratch (ip1 ip2 target : String)
    (p : HostParams) (env : Env) :
    (∃ e, determine_flags ip1 target p env = .error e
        ∧ determine_flags ip2 target p env = .error e)
    ∨ (determine_flags ip1 target p env = .ok (none, none, none)
        ∧ determine_flags ip2 target p env = .ok (none, none, none))
    ∨ (∃ rest run mk,
        determine_flags ip1 target p env = .ok (some (("--prefix=" ++ ip1) :: rest), run, mk)
        ∧ determine_flags ip2 target p env = .ok (some (("--prefix=" ++ ip2) :: rest), run, mk)) := by
  unfold determine_flags
  cases determine_flags_core target p env with
  | error e => exact Or.inl ⟨e, rfl, rfl⟩
  | ok o =>
    cases o with
    | none => exact Or.inr (Or.inl ⟨rfl, rfl⟩)
    | some out =>
      exact Or.inr (Or.inr ⟨out.flags, out.run_test_command, some out.make_pfx, rfl, rfl⟩)

/-- C1: on the catalog target cross-mips64 with a valid host, resolution ends
in the unhandled ValueError that `test_cmd.remove("simd_32")` raises (line
262), not in a typed error of the taxonomy and not in a plan. -/
theorem mips64_resolution_raises_valueerror :
    determine_flags "scratch" "cross-mips64" hostLinuxGcc env0
      = .error (.valueError "list.remove(x): x not in list") := rfl

/-- C2: for every caller-supplied pre-disabled test list, cross-mips64
resolution raises the ValueError from `test_cmd.remove("simd_32")` instead of
succeeding with simd_32 kept out of the skip-list. -/
theorem mips64_raises_for_every_disabled_list (dts : List String) :
    determine_flags_core "cross-mips64" { hostLinuxGcc with disabled_tests := dts } env0
      = .error (.valueError "list.remove(x): x not in list") := rfl


theorem mid_no_test (target : String)
    (ht : target ∈ ["docs", "baremetal", "emscripten", "cross-ios-arm64",
                    "cross-android-arm32", "cross-android-arm64"])
    (p : HostParams) (env : Env) :
    onMidSuccess (fun m => m.test_cmd = none) (resolveMain target p env) := by
  obtain ⟨os, cpu, cc, ccb, cch, root, pk11, gdbf, dw, extra, dts⟩ := p
  obtain ⟨ndk, api, br, bi, pk⟩ := env
  fin_cases ht <;>
  · unfold resolveMain
    split
    · exact trivial
    · next h =>
      rw [not_not] at h
      simp only [List.mem_cons, List.not_mem_nil, or_false] at h
      rcases h with h | h | h | h <;> subst h <;> cases ndk <;>
        by_cases hcc : cc = "gcc" <;> (try simp only [osRemap, hcc]) <;> trivial

/-- C4: for docs, baremetal, emscripten and the iOS/Android cross targets,
whenever resolution succeeds the resulting plan has no test run command. -/
theorem build_only_targets_no_test_plan (target : String)
    (ht : target ∈ ["docs", "baremetal", "emscripten", "cross-ios-arm64",
                    "cross-android-arm32", "cross-android-arm64"])
    (p : HostParams) (env : Env) :
    onSuccess NoTestRunProp (determine_flags_core target p env) := by
  have hm := mid_no_test target ht p env
  unfold determine_flags_core
  cases hr : resolveMain target p env with
  | error e => exact trivial
  | ok o =>
    cases o with
    | none => exact trivial
    | some m =>
      rw [hr] at hm
      have htc : m.test_cmd = none := hm
      show NoTestRunProp (finishTestCmd p.use_gdb m)
      unfold finishTestCmd
      rw [htc]
      exact ⟨rfl, rfl⟩

theorem build_only_targets_no_test_plan_witness :
    onSuccess NoTestRunProp (determine_flags_core "docs" hostLinuxGcc env0)
    ∧ coreOkSome (determine_flags_core "docs" hostLinuxGcc env0) = true :=
  ⟨build_only_targets_no_test_plan "docs" (by decide) hostLinuxGcc env0, rfl⟩

theorem valgrind_mid (p : HostParams) (env : Env)
    (hos : p.target_os ∈ ["linux", "osx", "windows", "freebsd"]) :
    onMidSuccess (fun m =>
      m.test_pfx = ["valgrind", "--error-exitcode=9", "-v", "--leak-check=full",
                    "--show-reachable=yes"]
      ∧ m.test_cmd = some [pathJoin p.root_dir "botan-test", "--test-threads=1"]
      ∧ m.disabled_tests = p.disabled_tests ++ slow_tests)
      (resolveMain "valgrind" p env)
    ∧ midOkSome (resolveMain "valgrind" p env) = true := by
  unfold resolveMain
  rw [if_neg (not_not_intro hos)]
  exact ⟨⟨rfl, rfl, by simp [disabledAfterTargets]⟩, rfl⟩

/-- C3: the valgrind target on any valid host resolves to a plan whose test
command forces --test-threads=1, whose prefix is the valgrind invocation with
error-exitcode, leak-check and show-reachable, and whose skip-list contains
the fixed slow-test list and every caller-supplied pre-disabled test. -/
theorem valgrind_plan (p : HostParams) (env : Env)
    (hos : p.target_os ∈ ["linux", "osx", "windows", "freebsd"]) :
    coreOkSome (determine_flags_core "valgrind" p env) = true
    ∧ onSuccess (ValgrindPlanProp p) (determine_flags_core "valgrind" p env) := by
  have hm := valgrind_mid p env hos
  unfold determine_flags_core
  cases hr : resolveMain "valgrind" p env with
  | error e => rw [hr] at hm; exact absurd hm.2 (by simp [midOkSome])
  | ok o =>
    cases o with
    | none => rw [hr] at hm; exact absurd hm.2 (by simp [midOkSome])
    | some m =>
      rw [hr] at hm
      obtain ⟨⟨h1, h2, h3⟩, -⟩ := hm
      refine ⟨rfl, ?_⟩
      show ValgrindPlanProp p (finishTestCmd p.use_gdb m)
      unfold finishTestCmd
      rw [h2]
      refine ⟨h1, ⟨_, rfl, by simp⟩, ?_, ?_⟩
      · intro a ha
        simp [h3, List.mem_append, ha]
      · intro a ha
        simp [h3, List.mem_append, ha]


/-- C7: with the debugger flag set, any resolution that yields a test plan
puts os_utils in the skip-list, renders the skip-list flag into the test
command, and wraps the command last: prefix, then gdb running the command
with its arguments, capturing a backtrace and quitting. -/
theorem gdb_wraps_last (target : String) (p : HostParams) (env : Env)
    (h : p.use_gdb = true) :
    onSuccess GdbWrapProp (determine_flags_core target p env) := by
  unfold determine_flags_core
  cases resolveMain target p env with
  | error e => exact trivial
  | ok o =>
    cases o with
    | none => exact trivial
    | some m =>
      show GdbWrapProp (finishTestCmd p.use_gdb m)
      rw [h]
      unfold finishTestCmd
      cases htc : m.test_cmd with
      | none => intro r hr; simp at hr
      | some tc0 =>
        intro r hr
        simp only [Option.some.injEq] at hr
        refine ⟨by simp, ⟨_, rfl, ?_, ?_⟩⟩
        · simp
        · simpa using hr.symm

theorem gdb_wraps_last_witness :
    onSuccess GdbWrapProp (determine_flags_core "shared" hostLinuxGdb env0)
    ∧ coreOkSome (determine_flags_core "shared" hostLinuxGdb env0) = true :=
  ⟨gdb_wraps_last "shared" hostLinuxGdb env0 rfl, rfl⟩

theorem valgrind_plan_witness :
    coreOkSome (determine_flags_core "valgrind" hostLinuxGcc env0) = true
    ∧ onSuccess (ValgrindPlanProp hostLinuxGcc)
        (determine_flags_core "valgrind" hostLinuxGcc env0) :=
  valgrind_plan hostLinuxGcc env0 (by decide)

theorem win64_mid (p : HostParams) (env : Env)
    (hos : p.target_os ∈ ["linux", "windows", "freebsd"]) :
    onMidSuccess (fun m =>
      m.test_pfx = ["wine"]
      ∧ m.test_cmd = some [pathJoin p.root_dir "botan-test.exe"]
      ∧ m.disabled_tests = p.disabled_tests ++ ["certstor_system"]
      ∧ ("--build-targets=" ++ String.intercalate "," (build_targets "cross-win64" "mingw"))
          ∈ m.flags)
      (resolveMain "cross-win64" p env)
    ∧ midOkSome (resolveMain "cross-win64" p env) = true := by
  obtain ⟨os, cpu, cc, ccb, cch, root, pk11, gdbf, dw, extra, dts⟩ := p
  simp only [List.mem_cons, List.not_mem_nil, or_false] at hos
  rcases hos with h | h | h <;> subst h <;>
    exact ⟨⟨rfl, rfl, by simp [disabledAfterTargets],
      by simp [baseFlags, osRemap, List.mem_append,
        show startswith "cross-win64" "cross-" = true from rfl]⟩, rfl⟩

/-- C5: the cross-win64 target on any valid host: whenever resolution
succeeds, the plan skips certstor_system, uses the wine prefix, runs the .exe
test binary, and its build-targets flag selects static and not shared. -/
theorem cross_win64_plan (p : HostParams) (env : Env)
    (hos : p.target_os ∈ ["linux", "osx", "windows", "freebsd"]) :
    onSuccess (CrossWin64Prop p) (determine_flags_core "cross-win64" p env) := by
  by_cases hosx : p.target_os = "osx"
  · unfold determine_flags_core
    cases hr : resolveMain "cross-win64" p env with
    | error e => exact trivial
    | ok o =>
      cases o with
      | none => exact trivial
      | some m =>
        exfalso
        obtain ⟨os, cpu, cc, ccb, cch, root, pk11, gdbf, dw, extra, dts⟩ := p
        subst hosx
        exact Except.noConfusion hr
  · have hos3 : p.target_os ∈ ["linux", "windows", "freebsd"] := by
      simp only [List.mem_cons, List.not_mem_nil, or_false] at hos ⊢
      rcases hos with h | h | h | h <;> simp [h] at hosx ⊢
    have hm := win64_mid p env hos3
    unfold determine_flags_core
    cases hr : resolveMain "cross-win64" p env with
    | error e => rw [hr] at hm; exact absurd hm.2 (by simp [midOkSome])
    | ok o =>
      cases o with
      | none => rw [hr] at hm; exact absurd hm.2 (by simp [midOkSome])
      | some m =>
        rw [hr] at hm
        obtain ⟨⟨h1, h2, h3, h4⟩, -⟩ := hm
        show CrossWin64Prop p (finishTestCmd p.use_gdb m)
        unfold finishTestCmd
        rw [h2]
        refine ⟨by simp [h3], h1, ⟨_, rfl, by simp⟩, by decide, by decide, h4⟩

theorem cross_win64_plan_witness :
    onSuccess (CrossWin64Prop hostLinuxGcc)
        (determine_flags_core "cross-win64" hostLinuxGcc env0)
    ∧ coreOkSome (determine_flags_core "cross-win64" hostLinuxGcc env0) = true :=
  ⟨cross_win64_plan hostLinuxGcc env0 (by decide), rfl⟩


theorem finishTestCmd_no_disabled (m : MidState) (hd : m.disabled_tests = []) :
    (finishTestCmd false m).disabled_tests = []
    ∧ (finishTestCmd false m).test_cmd = m.test_cmd
    ∧ (finishTestCmd false m).run_test_command
        = Option.map (fun tc => m.test_pfx ++ tc) m.test_cmd := by
  unfold finishTestCmd
  cases htc : m.test_cmd with
  | none => exact ⟨hd, rfl, rfl⟩
  | some tc0 => simp [hd]

/-- C10: when the caller supplies no pre-disabled tests, the target adds
none and the debugger flag is unset, the accumulated skip-list is empty and
finalization appends no skip-tests flag at all: the rendered test command is
the bare command and the run command is just the prefix plus that command. -/
theorem skip_flag_omitted_when_no_skips (target : String) (p : HostParams) (env : Env)
    (h1 : p.disabled_tests = []) (h2 : p.use_gdb = false)
    (h3 : target ≠ "cross-win64") (h4 : target ≠ "valgrind") :
    onMidSuccess (NoSkipFlagProp p.use_gdb) (resolveMain target p env) := by
  have hd : disabledAfterTargets target p.disabled_tests = [] := by
    simp [disabledAfterTargets, h1, h3, h4]
  rw [h2]
  unfold resolveMain
  split
  · exact trivial
  · show onMidSuccess _ (assemblePlan target (disabledAfterTargets target p.disabled_tests) _)
    generalize (if startswith target "cross-" = true then _ else _ :
      Except PyExc StepVars) = e
    cases e with
    | error e => exact trivial
    | ok tup =>
      obtain ⟨fl, cb, tc, tp, mp⟩ := tup
      exact ⟨hd, finishTestCmd_no_disabled _ hd⟩

theorem skip_flag_omitted_witness :
    midOkSome (resolveMain "shared" hostLinuxGcc env0) = true
    ∧ onMidSuccess (NoSkipFlagProp hostLinuxGcc.use_gdb)
        (resolveMain "shared" hostLinuxGcc env0) :=
  ⟨rfl, skip_flag_omitted_when_no_skips "shared" hostLinuxGcc env0 rfl rfl
    (by decide) (by decide)⟩

/-- C8 counterexample: on a macOS host with ANDROID_NDK absent, an Android
cross target does not fail with the missing-environment error: the osx remap
routes it to the iOS sub-case, which raises the unknown-cross-target error. -/
theorem android_on_osx_not_missing_env :
    determine_flags_core "cross-android-arm64" hostOsxGcc env0
        = .error (.raisedException "Unknown cross target cross-android-arm64 for iOS")
    ∧ env0.android_ndk = none
    ∧ ¬ (determine_flags_core "cross-android-arm64" hostOsxGcc env0
        = .error (.raisedException
            "Android CI build requires ANDROID_NDK env variable be set")) := by
  refine ⟨rfl, rfl, ?_⟩
  intro h
  have h2 := (show determine_flags_core "cross-android-arm64" hostOsxGcc env0
      = .error (.raisedException "Unknown cross target cross-android-arm64 for iOS")
      from rfl).symm.trans h
  simp at h2

/-- C8 (amended to valid hosts other than osx): resolution fails with the
missing-environment error exactly when ANDROID_NDK is absent; the API level
defaults to 16 for arm32 and 28 for arm64 unless the environment overrides
it; below 18 the getauxval-omitting flag is present, at or above 28 the
getentropy flag is present; the compiler binary is derived from the
architecture and the API level; no test run is produced. -/
theorem android_resolution (t : String)
    (ht : t = "cross-android-arm32" ∨ t = "cross-android-arm64")
    (p : HostParams) (env : Env)
    (hos : p.target_os ∈ ["linux", "windows", "freebsd"]) :
    (determine_flags_core t p env
        = .error (.raisedException "Android CI build requires ANDROID_NDK env variable be set")
      ↔ env.android_ndk = none)
    ∧ (env.android_api_level = 0 →
        androidApi t env = if t = "cross-android-arm32" then 16 else 28)
    ∧ (env.android_api_level ≠ 0 → androidApi t env = env.android_api_level)
    ∧ (env.android_ndk ≠ none → coreOkSome (determine_flags_core t p env) = true)
    ∧ onSuccess (AndroidPlanProp t env) (determine_flags_core t p env) := by
  obtain ⟨os, cpu, cc, ccb, cch, root, pk11, gdbf, dw, extra, dts⟩ := p
  obtain ⟨ndk, api, br, bi, pk⟩ := env
  simp only [List.mem_cons, List.not_mem_nil, or_false] at hos
  rcases ht with ht | ht <;> subst ht <;> rcases hos with h | h | h <;> subst h <;>
    cases ndk with
  | none =>
    exact ⟨⟨fun _ => rfl, fun _ => rfl⟩, fun ha => by simp at ha; simp [androidApi, ha],
           fun ha => by simp at ha; simp [androidApi, ha], fun hn => absurd rfl hn, trivial⟩
  | some s =>
    refine ⟨⟨fun h => Bool.noConfusion (show true = false from congrArg coreOkSome h),
             fun h => by simp at h⟩,
            fun ha => by simp at ha; simp [androidApi, ha],
            fun ha => by simp at ha; simp [androidApi, ha],
            fun _ => rfl,
            fun hlt => by simp [finishTestCmd, hlt],
            fun hge => by simp [finishTestCmd, hge],
            fun nd hnd => by cases hnd; simp [finishTestCmd],
            rfl⟩

theorem android_resolution_witness :
    (determine_flags_core "cross-android-arm64" hostLinuxGcc envNdk
        = .error (.raisedException "Android CI build requires ANDROID_NDK env variable be set")
      ↔ envNdk.android_ndk = none)
    ∧ coreOkSome (determine_flags_core "cross-android-arm64" hostLinuxGcc envNdk) = true := by
  have h := android_resolution "cross-android-arm64" (Or.inr rfl) hostLinuxGcc envNdk
    (by decide)
  exact ⟨h.1, h.2.2.2.1 (by decide)⟩
